import Mathlib

/-!
Shallow embedding of the Inventory-Copilot variant-metrics pipeline.

JavaScript `number` values are modelled as rationals (`ℚ`).  The sources
embedded here are:
* `src/app/services/logger.server.ts` — forecast helpers (`safeDivide`,
  `computeCoverage`, `round1`, `buildRowsForTimeframe`) and the budget
  allocator (`buildBudgetPlan`), plus `logEvent`;
* `src/unnamed/part_005` — `buildBudgetPlanFromRows` (same allocator body,
  parametric budget / target coverage);
* `src/unnamed/part_002` — the overstock row construction and severity
  classification of `getOverstockData`;
* `src/unnamed/part_001` — `targetCoverageDays` computation of
  `getDashboardData`;
* `src/app/services/inventory.sync.server.ts` — `getVariantMetrics` with its
  fresh-cache / live-fetch / stale-cache / sample fallback chain, modelled as
  a pure function of an environment record, returning the metrics list
  together with the `SyncLogEntry` rows appended during the call.

The module `src/app/config/inventory` is imported by the sources but is not
part of the repository snapshot; its constants are either taken from the
documented defaults of the specification (marked `Modelled from the spec:`)
or, where the specification gives no numeric value (`MIN_DAILY_SALES`),
kept as an explicit parameter of the embedded functions.
-/

namespace InventoryCopilot

/-- Sales buckets `{ "30d": …, "60d": …, "90d": … }` of a variant. -/
structure VariantSalesBuckets where
  d30 : ℚ
  d60 : ℚ
  d90 : ℚ
deriving DecidableEq

/-- The three dashboard timeframes `"30d" | "60d" | "90d"`. -/
inductive TimeframeKey
  | d30
  | d60
  | d90
deriving DecidableEq

/-- `variant.sales[timeframe]` bucket selection. -/
def VariantSalesBuckets.get (b : VariantSalesBuckets) : TimeframeKey → ℚ
  | .d30 => b.d30
  | .d60 => b.d60
  | .d90 => b.d90

/-- `VariantMetrics` (inventory.types): one synced row per variant. -/
structure VariantMetrics where
  id : String
  sku : String
  name : String
  variant : String
  available : ℚ
  unitCost : Option ℚ
  sales : VariantSalesBuckets
deriving DecidableEq

/-- `VariantInventory`: one inventory-snapshot item from the source adapter. -/
structure VariantInventory where
  id : String
  sku : String
  name : String
  variant : String
  available : ℚ
  unitCost : Option ℚ
deriving DecidableEq

/-- `MIN_SALES_FOR_FORECAST = 10` (logger.server.ts:389). -/
def MIN_SALES_FOR_FORECAST : ℚ := 10

/-- `DEFAULT_LEAD_TIME_DAYS = 14` (logger.server.ts:391). -/
def DEFAULT_LEAD_TIME_DAYS : ℚ := 14

/-- Modelled from the spec: `DEFAULT_SAFETY_DAYS` lives in the missing
`config/inventory` module; §6 documents the default `safety=7d`. -/
def DEFAULT_SAFETY_DAYS : ℚ := 7

/-- Modelled from the spec: `MAX_COVERAGE_DAYS` lives in the missing
`config/inventory` module; §4.2 documents "a maximum coverage constant
(default 999)". -/
def MAX_COVERAGE_DAYS : ℚ := 999

/-- Modelled from the spec: `DEFAULT_TARGET_COVERAGE` lives in the missing
`config/inventory` module; §4.2 floors the coverage target at 30 days and
the default configuration (lead 14 + safety 7 = 21) lands on that floor. -/
def DEFAULT_TARGET_COVERAGE : ℚ := 30

/-- Modelled from the spec: `DEFAULT_SHORTAGE_THRESHOLD_DAYS` lives in the
missing `config/inventory` module; §6 documents the default `shortage=10d`. -/
def DEFAULT_SHORTAGE_THRESHOLD_DAYS : ℚ := 10

/-- `safeDivide` (logger.server.ts:1510-1518).  Over `ℚ` every value is
finite, so the `Number.isFinite` guards reduce to the `denominator === 0`
test. -/
def safeDivide (numerator denominator defaultValue : ℚ) : ℚ :=
  if denominator = 0 then defaultValue else numerator / denominator

/-- `round1` (logger.server.ts:1542): `Math.round(value * 10) / 10`.
`Mathlib.round` agrees with JS `Math.round` (half-up) on every rational. -/
def round1 (value : ℚ) : ℚ := (round (value * 10) : ℤ) / 10

/-- `computeCoverage` (logger.server.ts:1520-1526).  `minDailySales` stands
for the `MIN_DAILY_SALES` constant of the missing `config/inventory`
module, whose numeric value the spec does not give; it is threaded as an
explicit parameter. -/
def computeCoverage (minDailySales available avgDailySales : ℚ) : ℚ :=
  if available ≤ 0 then 0
  else
    let adjustedSales := max avgDailySales minDailySales
    let rawCoverage := safeDivide available adjustedSales 0
    let rounded := max 0 (round1 rawCoverage)
    min rounded MAX_COVERAGE_DAYS

/-- `DashboardRow` (logger.server.ts:1298, built at 1574-1588): the fields a
built row always carries. -/
structure DashboardRow where
  sku : String
  name : String
  variant : String
  available : ℚ
  avgDailySales : ℚ
  daysOfStock : ℚ
  recommendedQty : ℚ
  coverageDays : ℚ
  stockValue : ℚ
  unitCost : Option ℚ
  sales : ℚ
  salesValue : ℚ
  insufficientSales : Bool
deriving DecidableEq

/-- `timeframe === "30d" ? 30 : timeframe === "60d" ? 60 : 90`
(logger.server.ts:1559). -/
def timeframeDays : TimeframeKey → ℚ
  | .d30 => 30
  | .d60 => 60
  | .d90 => 90

/-- The unrounded average daily sales of `buildRowsForTimeframe`
(logger.server.ts:1563-1564): zero below the forecast floor, else
`safeDivide(sales, days, 0)`. -/
def avgDailySalesRawOf (timeframe : TimeframeKey) (v : VariantMetrics) : ℚ :=
  if v.sales.get timeframe ≥ MIN_SALES_FOR_FORECAST then
    safeDivide (v.sales.get timeframe) (timeframeDays timeframe) 0
  else 0

/-- The per-variant body of `buildRowsForTimeframe`
(logger.server.ts:1561-1588). -/
def buildRow (minDailySales : ℚ) (timeframe : TimeframeKey)
    (targetCoverage : ℚ) (v : VariantMetrics) : DashboardRow :=
  let sales := v.sales.get timeframe
  let hasEnoughSales : Bool := sales ≥ MIN_SALES_FOR_FORECAST
  let avgDailySalesRaw := avgDailySalesRawOf timeframe v
  let avgDailySales := round1 avgDailySalesRaw
  let daysOfStock := computeCoverage minDailySales v.available avgDailySalesRaw
  let recommendedQty : ℚ :=
    if avgDailySalesRaw = 0 then 0
    else ((max 0 ⌈avgDailySalesRaw * targetCoverage - v.available⌉ : ℤ) : ℚ)
  let stockValue := v.unitCost.getD 0 * v.available
  { sku := v.sku
    name := v.name
    variant := v.variant
    available := v.available
    avgDailySales
    daysOfStock
    recommendedQty
    coverageDays := daysOfStock
    stockValue
    unitCost := v.unitCost
    sales
    salesValue := v.unitCost.getD 0 * sales
    insufficientSales := !hasEnoughSales }

/-- `buildRowsForTimeframe` (logger.server.ts:1554-1590). -/
def buildRowsForTimeframe (minDailySales : ℚ) (variants : List VariantMetrics)
    (timeframe : TimeframeKey) (targetCoverage : ℚ) : List DashboardRow :=
  variants.map (buildRow minDailySales timeframe targetCoverage)

/-- `targetCoverageDays = Math.max(leadTimeDays + safetyDays, 30)`
(src/unnamed/part_001:43, `getDashboardData`). -/
def targetCoverageDays (leadTimeDays safetyDays : ℚ) : ℚ :=
  max (leadTimeDays + safetyDays) 30

/-- `BudgetCandidate` (logger.server.ts:1284-1296): allocator input rows;
optional fields stay `Option`. -/
structure BudgetCandidate where
  sku : String
  name : String
  variant : String
  available : ℚ
  avgDailySales : ℚ
  daysOfStock : ℚ
  recommendedQty : ℚ
  unitCost : Option ℚ
  sales : Option ℚ
  salesValue : Option ℚ
  stockValue : Option ℚ
deriving DecidableEq

/-- A built `DashboardRow` viewed as a `BudgetCandidate` (the TS
`DashboardRow` type extends `BudgetCandidate`). -/
def DashboardRow.toBudgetCandidate (r : DashboardRow) : BudgetCandidate :=
  { sku := r.sku, name := r.name, variant := r.variant,
    available := r.available, avgDailySales := r.avgDailySales,
    daysOfStock := r.daysOfStock, recommendedQty := r.recommendedQty,
    unitCost := r.unitCost, sales := some r.sales,
    salesValue := some r.salesValue, stockValue := some r.stockValue }

/-- Three-tier unit-cost resolution of the allocator
(logger.server.ts:1649-1652):
`row.unitCost ?? (row.stockValue && row.available > 0 ?
row.stockValue / row.available : undefined) ?? 0`.  JS truthiness of
`row.stockValue` is "present and nonzero". -/
def resolveUnitCost (row : BudgetCandidate) : ℚ :=
  match row.unitCost with
  | some c => c
  | none =>
    match row.stockValue with
    | some sv => if sv ≠ 0 ∧ row.available > 0 then sv / row.available else 0
    | none => 0

/-- Three-tier importance fallback (logger.server.ts:1655-1659):
`row.salesValue ?? (row.sales ? row.sales * max(unitCost,1)
: row.avgDailySales * 30 * max(unitCost,1))`.  JS truthiness of
`row.sales` is "present and nonzero". -/
def importanceOf (row : BudgetCandidate) (unitCost : ℚ) : ℚ :=
  match row.salesValue with
  | some sv => sv
  | none =>
    match row.sales with
    | some s =>
      if s ≠ 0 then s * max unitCost 1 else row.avgDailySales * 30 * max unitCost 1
    | none => row.avgDailySales * 30 * max unitCost 1

/-- An enriched allocator candidate `{ row, unitCost, spend, score }`
(logger.server.ts:1648-1662). -/
structure Cand where
  row : BudgetCandidate
  unitCost : ℚ
  spend : ℚ
  score : ℚ
deriving DecidableEq

/-- Candidate enrichment (logger.server.ts:1648-1662): spend, risk score
(`1/daysOfStock`, capped at 2 for zero runway) and `score = riskScore *
(importance || 1)`. -/
def mkCand (row : BudgetCandidate) : Cand :=
  let unitCost := resolveUnitCost row
  let spend := row.recommendedQty * unitCost
  let riskScore := if row.daysOfStock > 0 then 1 / row.daysOfStock else 2
  let importance := importanceOf row unitCost
  let score := riskScore * (if importance = 0 then 1 else importance)
  { row, unitCost, spend, score }

/-- Stable insertion of a candidate into a score-descending list; ties keep
the earlier element first, matching the stable JS
`sort((a, b) => b.score - a.score)`. -/
def insertByScore (c : Cand) : List Cand → List Cand
  | [] => [c]
  | d :: ds => if c.score ≥ d.score then c :: d :: ds else d :: insertByScore c ds

/-- Stable sort by score descending (logger.server.ts:1663). -/
def sortByScoreDesc : List Cand → List Cand
  | [] => []
  | c :: cs => insertByScore c (sortByScoreDesc cs)

/-- The sorted candidate list of the allocator (logger.server.ts:1646-1663):
filter `recommendedQty > 0`, enrich, sort by score descending. -/
def candidatesOf (rows : List BudgetCandidate) : List Cand :=
  sortByScoreDesc ((rows.filter (fun r => r.recommendedQty > 0)).map mkCand)

/-- One pick of the budget plan (logger.server.ts:1671-1678).  `amount`
keeps the numeric spend; the source additionally renders it as a currency
string for display. -/
structure BudgetPick where
  sku : String
  name : String
  qty : ℚ
  amount : ℚ
  risk : String
deriving DecidableEq

/-- The pick record pushed for an admitted candidate
(logger.server.ts:1671-1678). -/
def pickOf (c : Cand) : BudgetPick :=
  { sku := c.row.sku
    name := c.row.name
    qty := c.row.recommendedQty
    amount := c.spend
    risk := if c.row.daysOfStock ≤ DEFAULT_SHORTAGE_THRESHOLD_DAYS
      then "爆款防断货" else "库存紧张" }

/-- One step of the greedy fill (logger.server.ts:1667-1680): skip
non-positive spend; admit when it fits the budget or the pick list is still
empty. -/
def greedyStep (budget : ℚ) (st : ℚ × List BudgetPick) (c : Cand) :
    ℚ × List BudgetPick :=
  if c.spend ≤ 0 then st
  else if st.1 + c.spend ≤ budget ∨ st.2.length = 0 then
    (st.1 + c.spend, st.2 ++ [pickOf c])
  else st

/-- The greedy fill over the sorted candidates, started from
`used = 0, picks = []` (logger.server.ts:1665-1680). -/
def greedyResult (budget : ℚ) (cands : List Cand) : ℚ × List BudgetPick :=
  cands.foldl (greedyStep budget) (0, [])

/-- `BudgetPlan` (logger.server.ts:1310-1326).  `excludedValue` keeps the
numeric `|excludedAmount|`; the source renders it as a currency string. -/
structure BudgetPlan where
  budget : ℚ
  coverageDays : ℚ
  usedAmount : ℚ
  excludedAmount : ℚ
  coverageShare : ℚ
  picks : List BudgetPick
  excludedValue : ℚ
  excludedCount : ℤ
deriving DecidableEq

/-- `buildBudgetPlanFromRows` (src/unnamed/part_005:538-597): the budget
allocator with parametric budget and target coverage. -/
def buildBudgetPlanFromRows (rows : List BudgetCandidate)
    (budget targetCoverage : ℚ) : BudgetPlan :=
  let candidates := candidatesOf rows
  let st := greedyResult budget candidates
  let used := st.1
  let picks := st.2
  let pickedSkus := picks.map (·.sku)
  let excludedAmount :=
    ((candidates.filter (fun c => ¬ pickedSkus.contains c.row.sku)).map
      (·.spend)).sum
  let excludedCount : ℤ := max ((candidates.length : ℤ) - picks.length) 0
  let totalPool := if used + excludedAmount = 0 then budget
    else used + excludedAmount
  let coverageShare := if totalPool > 0 then min 1 (used / totalPool) else 0
  { budget
    coverageDays := targetCoverage
    usedAmount := used
    excludedAmount
    coverageShare
    picks
    excludedValue := |excludedAmount|
    excludedCount }

/-- `buildBudgetPlan` (logger.server.ts:1642-1700): identical allocator body
with the budget fixed at 18000 and `coverageDays := DEFAULT_TARGET_COVERAGE`. -/
def buildBudgetPlan (rows : List BudgetCandidate) : BudgetPlan :=
  buildBudgetPlanFromRows rows 18000 DEFAULT_TARGET_COVERAGE

/-- Sum of the numeric spends of a pick list. -/
def sumAmounts (picks : List BudgetPick) : ℚ := (picks.map (·.amount)).sum

/-- The overstock severity levels of `getOverstockData`
(src/unnamed/part_002:30-35). -/
inductive OverstockSeverity
  | severe
  | mild
  | normal
deriving DecidableEq

/-- `OverstockRow` as built by `getOverstockData`
(src/unnamed/part_002:37-48). -/
structure OverstockRow where
  sku : String
  name : String
  variant : String
  available : ℚ
  sales30d : ℚ
  avgDailySales : ℚ
  coverageDays : ℚ
  stockValue : ℚ
  unitCost : Option ℚ
  severity : OverstockSeverity
deriving DecidableEq

/-- The per-variant map body of `getOverstockData`
(src/unnamed/part_002:25-49): 30-day average, coverage, stock value and the
three-level severity with `severe` taking precedence. -/
def overstockRowOf (minDailySales overstockThreshold mildThreshold : ℚ)
    (v : VariantMetrics) : OverstockRow :=
  let sales30d := v.sales.d30
  let avgDailySales := safeDivide sales30d 30 0
  let coverageDays := computeCoverage minDailySales v.available avgDailySales
  let stockValue := v.unitCost.getD 0 * v.available
  let severity :=
    if sales30d = 0 ∨ coverageDays ≥ overstockThreshold then
      OverstockSeverity.severe
    else if coverageDays ≥ mildThreshold then OverstockSeverity.mild
    else OverstockSeverity.normal
  { sku := v.sku
    name := v.name
    variant := v.variant
    available := v.available
    sales30d
    avgDailySales
    coverageDays
    stockValue
    unitCost := v.unitCost
    severity }

/-- The `rows` of `getOverstockData` (src/unnamed/part_002:24-50): map then
filter `available > 0`. -/
def overstockRows (minDailySales overstockThreshold mildThreshold : ℚ)
    (variants : List VariantMetrics) : List OverstockRow :=
  (variants.map (overstockRowOf minDailySales overstockThreshold mildThreshold)).filter
    (fun row => row.available > 0)

/-- `summary.severeCount` of `getOverstockData`
(src/unnamed/part_002:52-55): the number of rows classified `severe`. -/
def severeCount (minDailySales overstockThreshold mildThreshold : ℚ)
    (variants : List VariantMetrics) : ℕ :=
  ((overstockRows minDailySales overstockThreshold mildThreshold variants).filter
    (fun row => row.severity = OverstockSeverity.severe)).length

/-- `EventType` (logger.server.ts:3). -/
inductive EventType
  | sync
  | digest
  | webhook
  | error
deriving DecidableEq

/-- `EventStatus` (logger.server.ts:4). -/
inductive EventStatus
  | success
  | failure
  | pending
deriving DecidableEq

/-- `SyncLogEntry`: one appended `SyncLog` row (shopDomain, scope, status,
message), as created by `logEvent`. -/
structure SyncLogEntry where
  shopDomain : String
  scope : EventType
  status : EventStatus
  message : Option String
deriving DecidableEq

/-- `logEvent` (logger.server.ts:20-39) as the entry it appends; the message
is normalized by truncation to 500 characters (`MAX_MESSAGE_LENGTH`).  The
source additionally swallows storage failures ("logging failures should
never block main flows"), which the pure model renders as the append always
succeeding. -/
def logEvent (shop : String) (type : EventType) (status : EventStatus)
    (message : String) : SyncLogEntry :=
  { shopDomain := shop, scope := type, status, message := some (message.take 500) }

/-- First-occurrence-order deduplication, the behaviour of
`new Set([...])` iteration (inventory.sync.server.ts:73). -/
def dedupFirst (ids : List String) : List String :=
  ids.foldl (fun acc id => if acc.contains id then acc else acc ++ [id]) []

/-- The merge of `getVariantMetrics` (inventory.sync.server.ts:69-86): union
of variant ids from both streams, inventory fields defaulted when the
variant only appears in orders, all-zero sales buckets when it only appears
in inventory.  `new Map(inventory.map(...))` keeps the last entry per id. -/
def mergeVariants (inventory : List VariantInventory)
    (sales : List (String × VariantSalesBuckets)) : List VariantMetrics :=
  let ids := dedupFirst (inventory.map (·.id) ++ sales.map (·.1))
  ids.map fun id =>
    let inventoryItem := inventory.reverse.find? (fun item => item.id = id)
    let salesBuckets := (sales.lookup id).getD ⟨0, 0, 0⟩
    { id
      sku := (inventoryItem.map (·.sku)).getD "Unknown SKU"
      name := (inventoryItem.map (·.name)).getD "Unknown product"
      variant := (inventoryItem.map (·.variant)).getD ""
      available := (inventoryItem.map (·.available)).getD 0
      unitCost := inventoryItem.bind (·.unitCost)
      sales := salesBuckets }

/-- `getSampleVariantMetrics` (logger.server.ts:1764-1859): the fixed
synthetic baseline dataset. -/
def getSampleVariantMetrics : List VariantMetrics :=
  [ { id := "gid://shopify/ProductVariant/1", sku := "TS-XL-BLK",
      name := "Tech Shell Jacket", variant := "Black / XL",
      available := 38, unitCost := some 30, sales := ⟨162, 282, 369⟩ },
    { id := "gid://shopify/ProductVariant/2", sku := "HB12-OLV-128",
      name := "Heritage Bottle", variant := "Olive 12oz",
      available := 120, unitCost := some (17/2), sales := ⟨363, 618, 819⟩ },
    { id := "gid://shopify/ProductVariant/3", sku := "ATH-SHORT-NV-M",
      name := "Aero Run Short", variant := "Navy / M",
      available := 68, unitCost := some 15, sales := ⟨276, 468, 594⟩ },
    { id := "gid://shopify/ProductVariant/4", sku := "CASE-IPH15-MT",
      name := "Magnetic Case iPhone 15", variant := "Matte Black",
      available := 44, unitCost := some 12, sales := ⟨204, 354, 459⟩ },
    { id := "gid://shopify/ProductVariant/5", sku := "SOCK-MER-BLK",
      name := "Merino Crew Sock", variant := "Black / 2-pack",
      available := 150, unitCost := some 6, sales := ⟨342, 552, 729⟩ },
    { id := "gid://shopify/ProductVariant/6", sku := "SOFA-2S-GRY",
      name := "Mod Sofa 2-seater", variant := "Gray",
      available := 188, unitCost := some 100, sales := ⟨36, 68, 92⟩ },
    { id := "gid://shopify/ProductVariant/7", sku := "CNDL-WHT-3PK",
      name := "Scented Candle Set", variant := "White Tea / 3-pack",
      available := 420, unitCost := some 29, sales := ⟨105, 190, 270⟩ },
    { id := "gid://shopify/ProductVariant/8", sku := "MAT-YOGA-SND",
      name := "Studio Yoga Mat", variant := "Sand",
      available := 260, unitCost := some 36, sales := ⟨72, 126, 171⟩ },
    { id := "gid://shopify/ProductVariant/9", sku := "BAG-TOTE-CRM",
      name := "Canvas Day Tote", variant := "Cream",
      available := 344, unitCost := some 30, sales := ⟨123, 198, 241⟩ },
    { id := "gid://shopify/ProductVariant/10", sku := "LAMP-DESK-GLD",
      name := "Brass Desk Lamp", variant := "Gold",
      available := 140, unitCost := some 56, sales := ⟨33, 55, 75⟩ } ]

/-- The environment one call to `getVariantMetrics` observes:
* `freshCached` — the Metric Store rows within the freshness window
  (`getCachedVariantMetrics(shop, CACHE_MAX_MINUTES)`);
* `fetched` — the outcome of the two concurrent source-adapter fetches
  (`Promise.all`), either both streams or the thrown error message;
* `anyCached` — the Metric Store rows with no freshness filter
  (`getCachedVariantMetrics(shop)`). -/
structure SyncEnv where
  freshCached : List VariantMetrics
  fetched : Except String (List VariantInventory × List (String × VariantSalesBuckets))
  anyCached : List VariantMetrics

/-- `getVariantMetrics` (inventory.sync.server.ts:54-109) as a pure function
of the observed environment, returning the served metrics list together
with the `SyncLogEntry` rows appended during the call.  Metric-store writes
(`saveVariantMetrics`) are modelled as always succeeding state updates. -/
def getVariantMetrics (shopDomain : String) (env : SyncEnv) :
    List VariantMetrics × List SyncLogEntry :=
  if env.freshCached.length > 0 then (env.freshCached, [])
  else
    let afterTry : Option (List VariantMetrics) × List SyncLogEntry :=
      match env.fetched with
      | .ok (inventory, sales) =>
        let variants := mergeVariants inventory sales
        if variants.length > 0 then
          (some variants,
            [logEvent shopDomain .sync .success
              ("Variants synced: " ++ toString variants.length)])
        else (none, [])
      | .error e =>
        (none,
          [logEvent shopDomain .sync .failure ("Failed to load Shopify data: " ++ e)])
    match afterTry with
    | (some variants, logs) => (variants, logs)
    | (none, logs) =>
      if env.anyCached.length > 0 then (env.anyCached, logs)
      else
        (getSampleVariantMetrics,
          logs ++ [logEvent shopDomain .sync .failure "Fallback to sample metrics"])

/-- Scenario input of spec §8 (B): available 10, 300 units sold in 30 days. -/
def sampleHighDemandVariant : VariantMetrics :=
  { id := "gid://shopify/ProductVariant/hd", sku := "HD-1", name := "High Demand",
    variant := "", available := 10, unitCost := some 20, sales := ⟨300, 300, 300⟩ }

/-- Scenario input of spec §8 (A): available 100, zero sales in every window. -/
def sampleZeroSalesVariant : VariantMetrics :=
  { id := "gid://shopify/ProductVariant/zs", sku := "ZS-1", name := "Zero Sales",
    variant := "", available := 100, unitCost := some 9, sales := ⟨0, 0, 0⟩ }

/-- Scenario input of spec §8 (C): 5 units sold in 30 days, below the
forecast floor of 10. -/
def sampleLowSalesVariant : VariantMetrics :=
  { id := "gid://shopify/ProductVariant/ls", sku := "LS-1", name := "Low Sales",
    variant := "", available := 50, unitCost := some 4, sales := ⟨5, 8, 9⟩ }

/-- A concrete allocator candidate: 2 recommended units at unit cost 50,
spend 100. -/
def sampleBudgetCandidate : BudgetCandidate :=
  { sku := "HD-1", name := "High Demand", variant := "", available := 10,
    avgDailySales := 10, daysOfStock := 1, recommendedQty := 2,
    unitCost := some 50, sales := some 300, salesValue := some 6000,
    stockValue := some 500 }

/-- A shop state whose Metric Store holds fresh rows: the cache-hit branch. -/
def envFreshHit : SyncEnv :=
  { freshCached := getSampleVariantMetrics, fetched := .error "network down",
    anyCached := getSampleVariantMetrics }

/-- A shop state with an empty fresh cache, a failing live fetch, and stale
rows present: the stale-cache fallback branch. -/
def envStaleServe : SyncEnv :=
  { freshCached := [], fetched := .error "network down",
    anyCached := getSampleVariantMetrics }

/-! ### Helper lemmas -/

theorem round1_zero : round1 0 = 0 := by
  norm_num [round1]

theorem round1_nonneg {x : ℚ} (hx : 0 ≤ x) : 0 ≤ round1 x := by
  have h : (0 : ℤ) ≤ round (x * 10) := by
    rw [round_eq]
    exact Int.floor_nonneg.2 (by linarith)
  unfold round1
  positivity

theorem buildRow_avgDailySales (minDS : ℚ) (tf : TimeframeKey) (tc : ℚ)
    (v : VariantMetrics) :
    (buildRow minDS tf tc v).avgDailySales = round1 (avgDailySalesRawOf tf v) := rfl

theorem buildRow_insufficientSales (minDS : ℚ) (tf : TimeframeKey) (tc : ℚ)
    (v : VariantMetrics) :
    (buildRow minDS tf tc v).insufficientSales =
      !(decide (v.sales.get tf ≥ MIN_SALES_FOR_FORECAST)) := rfl

theorem buildRow_recommendedQty (minDS : ℚ) (tf : TimeframeKey) (tc : ℚ)
    (v : VariantMetrics) :
    (buildRow minDS tf tc v).recommendedQty =
      (if avgDailySalesRawOf tf v = 0 then 0
        else ((max 0 ⌈avgDailySalesRawOf tf v * tc - v.available⌉ : ℤ) : ℚ)) := rfl

theorem overstockRowOf_available (minDS t mild : ℚ) (v : VariantMetrics) :
    (overstockRowOf minDS t mild v).available = v.available := rfl

theorem overstockRowOf_sales30d (minDS t mild : ℚ) (v : VariantMetrics) :
    (overstockRowOf minDS t mild v).sales30d = v.sales.d30 := rfl

theorem overstockRowOf_coverageDays (minDS t mild : ℚ) (v : VariantMetrics) :
    (overstockRowOf minDS t mild v).coverageDays =
      computeCoverage minDS v.available (safeDivide v.sales.d30 30 0) := rfl

theorem overstockRowOf_severity (minDS t mild : ℚ) (v : VariantMetrics) :
    (overstockRowOf minDS t mild v).severity =
      (if v.sales.d30 = 0 ∨
          computeCoverage minDS v.available (safeDivide v.sales.d30 30 0) ≥ t then
        OverstockSeverity.severe
      else if computeCoverage minDS v.available (safeDivide v.sales.d30 30 0) ≥ mild
        then OverstockSeverity.mild
      else OverstockSeverity.normal) := rfl

theorem mkCand_row (r : BudgetCandidate) : (mkCand r).row = r := rfl

theorem mkCand_spend (r : BudgetCandidate) :
    (mkCand r).spend = r.recommendedQty * resolveUnitCost r := rfl

theorem mem_insertByScore {x c : Cand} {l : List Cand} :
    x ∈ insertByScore c l ↔ x = c ∨ x ∈ l := by
  induction l with
  | nil => simp [insertByScore]
  | cons d ds ih =>
    rw [insertByScore]
    by_cases h : c.score ≥ d.score
    · simp [h]
    · simp only [h, if_false, List.mem_cons, ih]
      tauto

theorem mem_sortByScoreDesc {x : Cand} {l : List Cand} :
    x ∈ sortByScoreDesc l ↔ x ∈ l := by
  induction l with
  | nil => simp [sortByScoreDesc]
  | cons c cs ih => rw [sortByScoreDesc, mem_insertByScore, ih, List.mem_cons]

theorem sumAmounts_nil : sumAmounts [] = 0 := rfl

theorem sumAmounts_append (p q : List BudgetPick) :
    sumAmounts (p ++ q) = sumAmounts p + sumAmounts q := by
  simp [sumAmounts]

theorem pickOf_amount (c : Cand) : (pickOf c).amount = c.spend := rfl

theorem greedyStep_skip (budget : ℚ) (st : ℚ × List BudgetPick) (c : Cand)
    (h : c.spend ≤ 0) : greedyStep budget st c = st := by
  simp [greedyStep, h]

theorem greedyStep_push (budget : ℚ) (st : ℚ × List BudgetPick) (c : Cand)
    (h : ¬ c.spend ≤ 0) (hc : st.1 + c.spend ≤ budget ∨ st.2.length = 0) :
    greedyStep budget st c = (st.1 + c.spend, st.2 ++ [pickOf c]) := by
  simp only [greedyStep, if_neg h, if_pos hc]

theorem greedyStep_exclude (budget : ℚ) (st : ℚ × List BudgetPick) (c : Cand)
    (h : ¬ c.spend ≤ 0) (hc : ¬ (st.1 + c.spend ≤ budget ∨ st.2.length = 0)) :
    greedyStep budget st c = st := by
  simp only [greedyStep, if_neg h, if_neg hc]

theorem greedy_foldl_inv (budget : ℚ) :
    ∀ (cs : List Cand) (u : ℚ) (p : List BudgetPick),
      u = sumAmounts p → 0 ≤ u → (u ≤ budget ∨ p.length = 1 ∨ p = []) →
      (cs.foldl (greedyStep budget) (u, p)).1 =
          sumAmounts (cs.foldl (greedyStep budget) (u, p)).2 ∧
        0 ≤ (cs.foldl (greedyStep budget) (u, p)).1 ∧
        ((cs.foldl (greedyStep budget) (u, p)).1 ≤ budget ∨
          (cs.foldl (greedyStep budget) (u, p)).2.length = 1 ∨
          (cs.foldl (greedyStep budget) (u, p)).2 = [])
  | [], u, p, h1, h2, h3 => ⟨h1, h2, h3⟩
  | c :: cs, u, p, h1, h2, h3 => by
    rw [List.foldl_cons]
    by_cases hs : c.spend ≤ 0
    · rw [greedyStep_skip budget (u, p) c hs]
      exact greedy_foldl_inv budget cs u p h1 h2 h3
    · by_cases hc : (u, p).1 + c.spend ≤ budget ∨ (u, p).2.length = 0
      · rw [greedyStep_push budget (u, p) c hs hc]
        have hspos : 0 < c.spend := lt_of_not_le hs
        refine greedy_foldl_inv budget cs _ _ ?_ (by positivity) ?_
        · rw [sumAmounts_append, ← h1]
          simp [sumAmounts, pickOf_amount]
        · rcases hc with hfit | hempty
          · exact Or.inl hfit
          · have hpnil : p = [] := List.length_eq_zero.1 hempty
            subst hpnil
            simp
      · rw [greedyStep_exclude budget (u, p) c hs hc]
        exact greedy_foldl_inv budget cs u p h1 h2 h3

theorem greedy_foldl_ne_nil (budget : ℚ) :
    ∀ (cs : List Cand) (u : ℚ) (p : List BudgetPick),
      (p ≠ [] ∨ ∃ c ∈ cs, 0 < c.spend) →
      (cs.foldl (greedyStep budget) (u, p)).2 ≠ []
  | [], u, p, h => by
    rcases h with h | h
    · exact h
    · simp at h
  | c :: cs, u, p, h => by
    rw [List.foldl_cons]
    by_cases hs : c.spend ≤ 0
    · rw [greedyStep_skip budget (u, p) c hs]
      refine greedy_foldl_ne_nil budget cs u p ?_
      rcases h with h | ⟨d, hd, hdpos⟩
      · exact Or.inl h
      · rcases List.mem_cons.1 hd with rfl | hdcs
        · exact absurd hdpos (not_lt.2 hs)
        · exact Or.inr ⟨d, hdcs, hdpos⟩
    · by_cases hc : (u, p).1 + c.spend ≤ budget ∨ (u, p).2.length = 0
      · rw [greedyStep_push budget (u, p) c hs hc]
        exact greedy_foldl_ne_nil budget cs _ _ (Or.inl (by simp))
      · rw [greedyStep_exclude budget (u, p) c hs hc]
        refine greedy_foldl_ne_nil budget cs u p (Or.inl ?_)
        intro hpnil
        exact hc (Or.inr (by simp [hpnil]))

theorem buildBudgetPlanFromRows_usedAmount (rows : List BudgetCandidate)
    (budget tc : ℚ) :
    (buildBudgetPlanFromRows rows budget tc).usedAmount =
      (greedyResult budget (candidatesOf rows)).1 := rfl

theorem buildBudgetPlanFromRows_picks (rows : List BudgetCandidate)
    (budget tc : ℚ) :
    (buildBudgetPlanFromRows rows budget tc).picks =
      (greedyResult budget (candidatesOf rows)).2 := rfl

theorem buildBudgetPlanFromRows_excludedAmount (rows : List BudgetCandidate)
    (budget tc : ℚ) :
    (buildBudgetPlanFromRows rows budget tc).excludedAmount =
      (((candidatesOf rows).filter (fun c =>
        ¬ ((greedyResult budget (candidatesOf rows)).2.map (·.sku)).contains
          c.row.sku)).map (·.spend)).sum := rfl

theorem buildBudgetPlanFromRows_coverageShare_eq (rows : List BudgetCandidate)
    (budget tc : ℚ) :
    (buildBudgetPlanFromRows rows budget tc).coverageShare =
      (if (if (buildBudgetPlanFromRows rows budget tc).usedAmount +
            (buildBudgetPlanFromRows rows budget tc).excludedAmount = 0 then budget
          else (buildBudgetPlanFromRows rows budget tc).usedAmount +
            (buildBudgetPlanFromRows rows budget tc).excludedAmount) > 0 then
        min 1 ((buildBudgetPlanFromRows rows budget tc).usedAmount /
          (if (buildBudgetPlanFromRows rows budget tc).usedAmount +
              (buildBudgetPlanFromRows rows budget tc).excludedAmount = 0 then budget
            else (buildBudgetPlanFromRows rows budget tc).usedAmount +
              (buildBudgetPlanFromRows rows budget tc).excludedAmount))
      else 0) := rfl

theorem getVariantMetrics_fresh (shop : String) (env : SyncEnv)
    (h : env.freshCached ≠ []) :
    getVariantMetrics shop env = (env.freshCached, []) := by
  rw [getVariantMetrics, if_pos (List.length_pos.2 h)]

theorem getVariantMetrics_live (shop : String) (env : SyncEnv)
    (inventory : List VariantInventory)
    (sales : List (String × VariantSalesBuckets))
    (h1 : env.freshCached = []) (h2 : env.fetched = .ok (inventory, sales))
    (h3 : mergeVariants inventory sales ≠ []) :
    getVariantMetrics shop env = (mergeVariants inventory sales,
      [logEvent shop .sync .success
        ("Variants synced: " ++ toString (mergeVariants inventory sales).length)]) := by
  rw [getVariantMetrics, if_neg (by simp [h1])]
  simp only [h2]
  rw [if_pos (List.length_pos.2 h3)]

theorem getVariantMetrics_emptyMerge_stale (shop : String) (env : SyncEnv)
    (inventory : List VariantInventory)
    (sales : List (String × VariantSalesBuckets))
    (h1 : env.freshCached = []) (h2 : env.fetched = .ok (inventory, sales))
    (h3 : mergeVariants inventory sales = []) (h4 : env.anyCached ≠ []) :
    getVariantMetrics shop env = (env.anyCached, []) := by
  rw [getVariantMetrics, if_neg (by simp [h1])]
  simp only [h2, h3]
  simp [List.length_pos.2 h4]

theorem getVariantMetrics_emptyMerge_sample (shop : String) (env : SyncEnv)
    (inventory : List VariantInventory)
    (sales : List (String × VariantSalesBuckets))
    (h1 : env.freshCached = []) (h2 : env.fetched = .ok (inventory, sales))
    (h3 : mergeVariants inventory sales = []) (h4 : env.anyCached = []) :
    getVariantMetrics shop env = (getSampleVariantMetrics,
      [logEvent shop .sync .failure "Fallback to sample metrics"]) := by
  rw [getVariantMetrics, if_neg (by simp [h1])]
  simp only [h2, h3]
  simp [h4]

theorem getVariantMetrics_fetchErr_stale (shop : String) (env : SyncEnv)
    (e : String) (h1 : env.freshCached = []) (h2 : env.fetched = .error e)
    (h4 : env.anyCached ≠ []) :
    getVariantMetrics shop env = (env.anyCached,
      [logEvent shop .sync .failure ("Failed to load Shopify data: " ++ e)]) := by
  rw [getVariantMetrics, if_neg (by simp [h1])]
  simp only [h2]
  rw [if_pos (List.length_pos.2 h4)]

theorem getVariantMetrics_fetchErr_sample (shop : String) (env : SyncEnv)
    (e : String) (h1 : env.freshCached = []) (h2 : env.fetched = .error e)
    (h4 : env.anyCached = []) :
    getVariantMetrics shop env = (getSampleVariantMetrics,
      [logEvent shop .sync .failure ("Failed to load Shopify data: " ++ e),
       logEvent shop .sync .failure "Fallback to sample metrics"]) := by
  rw [getVariantMetrics, if_neg (by simp [h1])]
  simp only [h2]
  rw [if_neg (by simp [h4])]
  simp

theorem getSampleVariantMetrics_ne_nil : getSampleVariantMetrics ≠ [] := by
  simp [getSampleVariantMetrics]

theorem overstockRowOf_severe_mono (minDS mild t1 t2 : ℚ) (h : t1 ≤ t2)
    (v : VariantMetrics)
    (hs : (overstockRowOf minDS t2 mild v).severity = OverstockSeverity.severe) :
    (overstockRowOf minDS t1 mild v).severity = OverstockSeverity.severe := by
  rw [overstockRowOf_severity] at hs ⊢
  by_cases hc : v.sales.d30 = 0 ∨
      computeCoverage minDS v.available (safeDivide v.sales.d30 30 0) ≥ t2
  · rcases hc with h0 | hcov
    · rw [if_pos (Or.inl h0)]
    · rw [if_pos (Or.inr (le_trans h hcov))]
  · rw [if_neg hc] at hs
    split_ifs at hs

theorem severeCount_eq_countP (minDS t mild : ℚ) (vs : List VariantMetrics) :
    severeCount minDS t mild vs = vs.countP (fun v =>
      decide (0 < (overstockRowOf minDS t mild v).available) &&
      decide ((overstockRowOf minDS t mild v).severity = OverstockSeverity.severe)) := by
  induction vs with
  | nil => rfl
  | cons v vs ih =>
    by_cases h1 : 0 < (overstockRowOf minDS t mild v).available <;>
      by_cases h2 : (overstockRowOf minDS t mild v).severity = OverstockSeverity.severe <;>
        simp [severeCount, overstockRows, List.filter_cons, List.countP_cons, h1, h2,
          ← ih, severeCount, overstockRows]

/-! ### Claim theorems -/

/-- C3: for every variant and timeframe, if the variant's sales count in the
chosen timeframe is strictly below `MIN_SALES_FOR_FORECAST` (10), the
dashboard row built for it has `avgDailySales = 0`,
`insufficientSales = true` and `recommendedQty = 0`, regardless of available
stock. -/
theorem buildRow_below_forecast_floor (minDS : ℚ) (tf : TimeframeKey) (tc : ℚ)
    (v : VariantMetrics) (h : v.sales.get tf < MIN_SALES_FOR_FORECAST) :
    (buildRow minDS tf tc v).avgDailySales = 0 ∧
      (buildRow minDS tf tc v).insufficientSales = true ∧
      (buildRow minDS tf tc v).recommendedQty = 0 := by
  have hb : ¬ (v.sales.get tf ≥ MIN_SALES_FOR_FORECAST) := not_le.2 h
  have hraw : avgDailySalesRawOf tf v = 0 := by
    rw [avgDailySalesRawOf, if_neg hb]
  refine ⟨?_, ?_, ?_⟩
  · rw [buildRow_avgDailySales, hraw, round1_zero]
  · rw [buildRow_insufficientSales]
    simp [hb]
  · rw [buildRow_recommendedQty, if_pos hraw]

/-- C3 witness: 5 units sold in 30 days (below the floor of 10) with 50
units available yields a zeroed forecast row. -/
theorem buildRow_below_forecast_floor_w :
    sampleLowSalesVariant.sales.get TimeframeKey.d30 < MIN_SALES_FOR_FORECAST ∧
      ((buildRow 1 TimeframeKey.d30 30 sampleLowSalesVariant).avgDailySales = 0 ∧
        (buildRow 1 TimeframeKey.d30 30 sampleLowSalesVariant).insufficientSales = true ∧
        (buildRow 1 TimeframeKey.d30 30 sampleLowSalesVariant).recommendedQty = 0) :=
  ⟨by norm_num [sampleLowSalesVariant, MIN_SALES_FOR_FORECAST, VariantSalesBuckets.get],
    buildRow_below_forecast_floor 1 TimeframeKey.d30 30 sampleLowSalesVariant
      (by norm_num [sampleLowSalesVariant, MIN_SALES_FOR_FORECAST, VariantSalesBuckets.get])⟩

/-- C4: for every variant (with the data-model invariant `available ≥ 0`)
and timeframe, the recommended quantity equals
`max(0, ceil(avgDailySalesUnrounded × targetCoverageDays − available))` and
is 0 whenever the unrounded average is 0; with
`targetCoverageDays = max(leadTime + safety, 30)` the scenario
available=10, sales30d=300, leadTime=14, safety=7 yields target coverage 30
and `recommendedQty = 290`. -/
theorem buildRow_recommendedQty_formula (minDS : ℚ) (tf : TimeframeKey)
    (tc : ℚ) (v : VariantMetrics) (h : 0 ≤ v.available) :
    (buildRow minDS tf tc v).recommendedQty =
        ((max 0 ⌈avgDailySalesRawOf tf v * tc - v.available⌉ : ℤ) : ℚ) ∧
      (avgDailySalesRawOf tf v = 0 → (buildRow minDS tf tc v).recommendedQty = 0) ∧
      targetCoverageDays DEFAULT_LEAD_TIME_DAYS DEFAULT_SAFETY_DAYS = 30 ∧
      (buildRow minDS TimeframeKey.d30
        (targetCoverageDays DEFAULT_LEAD_TIME_DAYS DEFAULT_SAFETY_DAYS)
        sampleHighDemandVariant).recommendedQty = 290 := by
  refine ⟨?_, ?_, ?_, ?_⟩
  · rw [buildRow_recommendedQty]
    by_cases hz : avgDailySalesRawOf tf v = 0
    · rw [if_pos hz, hz]
      have hceil : ⌈(0 : ℚ) * tc - v.available⌉ ≤ 0 := by
        rw [zero_mul, zero_sub]
        exact Int.ceil_le.2 (by push_cast; linarith)
      rw [max_eq_left hceil]
      norm_num
    · rw [if_neg hz]
  · intro hz
    rw [buildRow_recommendedQty, if_pos hz]
  · norm_num [targetCoverageDays, DEFAULT_LEAD_TIME_DAYS, DEFAULT_SAFETY_DAYS]
  · norm_num [buildRow_recommendedQty, avgDailySalesRawOf, safeDivide,
      MIN_SALES_FOR_FORECAST, timeframeDays, VariantSalesBuckets.get,
      sampleHighDemandVariant, targetCoverageDays, DEFAULT_LEAD_TIME_DAYS,
      DEFAULT_SAFETY_DAYS]

/-- C4 witness: the spec's Scenario B instance, `recommendedQty = 290`. -/
theorem buildRow_recommendedQty_formula_w :
    (0 : ℚ) ≤ sampleHighDemandVariant.available ∧
      (buildRow 1 TimeframeKey.d30 30 sampleHighDemandVariant).recommendedQty = 290 := by
  have h := buildRow_recommendedQty_formula 1 TimeframeKey.d30 30
    sampleHighDemandVariant (by norm_num [sampleHighDemandVariant])
  refine ⟨by norm_num [sampleHighDemandVariant], ?_⟩
  have h290 := h.2.2.2
  rw [h.2.2.1] at h290
  exact h290

/-- C5: for a positive minimum-daily-sales constant, coverage-days is 0 when
`available ≤ 0`, and otherwise equals available divided by
`max(avgDailySales, minDailySales)`, rounded to one decimal and capped at
`MAX_COVERAGE_DAYS` (999). -/
theorem computeCoverage_policy (minDS available avg : ℚ) (h : 0 < minDS) :
    (available ≤ 0 → computeCoverage minDS available avg = 0) ∧
      (0 < available → computeCoverage minDS available avg =
        min (round1 (available / max avg minDS)) MAX_COVERAGE_DAYS) := by
  constructor
  · intro hle
    rw [computeCoverage, if_pos hle]
  · intro hpos
    rw [computeCoverage, if_neg (not_le.2 hpos)]
    show min (max 0 (round1 (safeDivide available (max avg minDS) 0)))
      MAX_COVERAGE_DAYS = _
    have hden : max avg minDS ≠ 0 :=
      ne_of_gt (lt_of_lt_of_le h (le_max_right avg minDS))
    rw [safeDivide, if_neg hden]
    have h0 : 0 ≤ round1 (available / max avg minDS) :=
      round1_nonneg (div_nonneg hpos.le
        (le_of_lt (lt_of_lt_of_le h (le_max_right avg minDS))))
    rw [max_eq_right h0]

/-- C5 witness: with the constant at 1, 5 units available and zero velocity
give 5 coverage days. -/
theorem computeCoverage_policy_w :
    (0 : ℚ) < 1 ∧ computeCoverage 1 5 0 = 5 := by
  refine ⟨by norm_num, ?_⟩
  have h := (computeCoverage_policy 1 5 0 (by norm_num)).2 (by norm_num)
  rw [h]
  norm_num [round1, round_eq, MAX_COVERAGE_DAYS]

/-- C10: `computeCoverage` is total and its result lies in `[0, 999]` for
every rational input, including negative available and negative or zero
average daily sales (the division guard is `safeDivide`). -/
theorem computeCoverage_total_range (minDS available avg : ℚ) :
    0 ≤ computeCoverage minDS available avg ∧
      computeCoverage minDS available avg ≤ 999 := by
  rw [computeCoverage]
  by_cases hle : available ≤ 0
  · rw [if_pos hle]
    norm_num
  · rw [if_neg hle]
    show 0 ≤ min (max 0 (round1 (safeDivide available (max avg minDS) 0)))
        MAX_COVERAGE_DAYS ∧
      min (max 0 (round1 (safeDivide available (max avg minDS) 0)))
        MAX_COVERAGE_DAYS ≤ 999
    constructor
    · exact le_min (le_max_left 0 _) (by norm_num [MAX_COVERAGE_DAYS])
    · exact le_trans (min_le_right _ _) (by norm_num [MAX_COVERAGE_DAYS])

/-- C6: every row produced by the overstock view has `available > 0`, its
severity follows the precedence severe (zero 30-day sales or coverage at or
above the overstock threshold) → mild (coverage at or above the mild
threshold) → normal; and the scenario available=100, sales30d=0 is severe
with `recommendedQty = 0`. -/
theorem overstock_classification (minDS t mild : ℚ)
    (variants : List VariantMetrics) :
    (∀ r ∈ overstockRows minDS t mild variants,
        0 < r.available ∧
          r.severity = (if r.sales30d = 0 ∨ r.coverageDays ≥ t then
              OverstockSeverity.severe
            else if r.coverageDays ≥ mild then OverstockSeverity.mild
            else OverstockSeverity.normal)) ∧
      (overstockRowOf minDS t mild sampleZeroSalesVariant).severity =
        OverstockSeverity.severe ∧
      ∀ tc, (buildRow minDS TimeframeKey.d30 tc sampleZeroSalesVariant).recommendedQty
        = 0 := by
  refine ⟨?_, ?_, ?_⟩
  · intro r hr
    rw [overstockRows] at hr
    obtain ⟨hmem, hav⟩ := List.mem_filter.1 hr
    obtain ⟨v, hv, rfl⟩ := List.mem_map.1 hmem
    refine ⟨by simpa using hav, ?_⟩
    rw [overstockRowOf_severity, overstockRowOf_sales30d, overstockRowOf_coverageDays]
  · rw [overstockRowOf_severity]
    rw [if_pos (Or.inl (show sampleZeroSalesVariant.sales.d30 = 0 from rfl))]
  · intro tc
    have hz : avgDailySalesRawOf TimeframeKey.d30 sampleZeroSalesVariant = 0 := by
      norm_num [avgDailySalesRawOf, sampleZeroSalesVariant, MIN_SALES_FOR_FORECAST,
        VariantSalesBuckets.get]
    rw [buildRow_recommendedQty, if_pos hz]

/-- C6 witness: the Scenario A variant is kept by the `available > 0` filter
and its row satisfies the classification equation. -/
theorem overstock_classification_w :
    overstockRowOf 1 90 60 sampleZeroSalesVariant ∈
        overstockRows 1 90 60 [sampleZeroSalesVariant] ∧
      0 < (overstockRowOf 1 90 60 sampleZeroSalesVariant).available ∧
      (overstockRowOf 1 90 60 sampleZeroSalesVariant).severity =
        (if (overstockRowOf 1 90 60 sampleZeroSalesVariant).sales30d = 0 ∨
            (overstockRowOf 1 90 60 sampleZeroSalesVariant).coverageDays ≥ 90 then
          OverstockSeverity.severe
        else if (overstockRowOf 1 90 60 sampleZeroSalesVariant).coverageDays ≥ 60
          then OverstockSeverity.mild
        else OverstockSeverity.normal) := by
  have hmem : overstockRowOf 1 90 60 sampleZeroSalesVariant ∈
      overstockRows 1 90 60 [sampleZeroSalesVariant] := by
    rw [overstockRows]
    refine List.mem_filter.2 ⟨List.mem_map.2 ⟨sampleZeroSalesVariant, by simp, rfl⟩, ?_⟩
    simp [overstockRowOf_available, sampleZeroSalesVariant]
  have h := (overstock_classification 1 90 60 [sampleZeroSalesVariant]).1 _ hmem
  exact ⟨hmem, h.1, h.2⟩

/-- C8: for a fixed variant set and thresholds `t1 ≤ t2`, the number of rows
classified overstock-severe under `t2` is at most the number classified
severe under `t1`. -/
theorem severeCount_threshold_antitone (minDS mild t1 t2 : ℚ)
    (variants : List VariantMetrics) (h : t1 ≤ t2) :
    severeCount minDS t2 mild variants ≤ severeCount minDS t1 mild variants := by
  rw [severeCount_eq_countP, severeCount_eq_countP]
  apply List.countP_mono_left
  intro v _ hv
  simp only [Bool.and_eq_true, decide_eq_true_eq] at hv ⊢
  constructor
  · have h1 := hv.1
    rw [overstockRowOf_available] at h1
    rw [overstockRowOf_available]
    exact h1
  · exact overstockRowOf_severe_mono minDS mild t1 t2 h v hv.2

/-- C8 witness: raising the severe threshold from 60 to 90 days does not
increase the severe count on the sample dataset. -/
theorem severeCount_threshold_antitone_w :
    (60 : ℚ) ≤ 90 ∧
      severeCount 1 90 60 getSampleVariantMetrics ≤
        severeCount 1 60 60 getSampleVariantMetrics :=
  ⟨by norm_num,
    severeCount_threshold_antitone 1 60 60 90 getSampleVariantMetrics (by norm_num)⟩

/-- C1 (amended: for a nonnegative budget): the sum of the picked spends
equals `usedAmount`; `usedAmount ≤ budget` or the pick list has exactly one
element (the forced first pick); and when some candidate has positive spend
the pick list is non-empty. -/
theorem budget_plan_invariant (rows : List BudgetCandidate) (budget tc : ℚ)
    (hb : 0 ≤ budget) :
    sumAmounts (buildBudgetPlanFromRows rows budget tc).picks =
        (buildBudgetPlanFromRows rows budget tc).usedAmount ∧
      ((buildBudgetPlanFromRows rows budget tc).usedAmount ≤ budget ∨
        (buildBudgetPlanFromRows rows budget tc).picks.length = 1) ∧
      ((∃ r ∈ rows, 0 < r.recommendedQty ∧
          0 < r.recommendedQty * resolveUnitCost r) →
        (buildBudgetPlanFromRows rows budget tc).picks ≠ []) := by
  have hinv := greedy_foldl_inv budget (candidatesOf rows) 0 []
    (by simp [sumAmounts]) le_rfl (Or.inr (Or.inr rfl))
  rw [buildBudgetPlanFromRows_usedAmount, buildBudgetPlanFromRows_picks]
  simp only [greedyResult]
  refine ⟨hinv.1.symm, ?_, ?_⟩
  · rcases hinv.2.2 with hle | hone | hnil
    · exact Or.inl hle
    · exact Or.inr hone
    · refine Or.inl ?_
      rw [hinv.1, hnil, sumAmounts_nil]
      exact hb
  · rintro ⟨r, hr, hrq, hsp⟩
    apply greedy_foldl_ne_nil budget (candidatesOf rows) 0 []
    refine Or.inr ⟨mkCand r, ?_, ?_⟩
    · rw [candidatesOf, mem_sortByScoreDesc]
      exact List.mem_map.2 ⟨r, List.mem_filter.2 ⟨hr, by simp [hrq]⟩, rfl⟩
    · rw [mkCand_spend]
      exact hsp

/-- C1 witness: a single positive-spend candidate under the nominal 18000
budget. -/
theorem budget_plan_invariant_w :
    (0 : ℚ) ≤ 18000 ∧
      (sumAmounts (buildBudgetPlanFromRows [sampleBudgetCandidate] 18000 30).picks =
          (buildBudgetPlanFromRows [sampleBudgetCandidate] 18000 30).usedAmount ∧
        ((buildBudgetPlanFromRows [sampleBudgetCandidate] 18000 30).usedAmount ≤ 18000 ∨
          (buildBudgetPlanFromRows [sampleBudgetCandidate] 18000 30).picks.length = 1) ∧
        ((∃ r ∈ [sampleBudgetCandidate], 0 < r.recommendedQty ∧
            0 < r.recommendedQty * resolveUnitCost r) →
          (buildBudgetPlanFromRows [sampleBudgetCandidate] 18000 30).picks ≠ [])) :=
  ⟨by norm_num,
    budget_plan_invariant [sampleBudgetCandidate] 18000 30 (by norm_num)⟩

/-- C1 counterexample: with an empty candidate list and budget −1 the plan
has `usedAmount = 0 > budget` and an empty pick list, so the claimed
disjunction fails as stated for arbitrary budgets. -/
theorem budget_plan_invariant_cex :
    ¬ (sumAmounts (buildBudgetPlanFromRows [] (-1) 30).picks =
          (buildBudgetPlanFromRows [] (-1) 30).usedAmount ∧
        ((buildBudgetPlanFromRows [] (-1) 30).usedAmount ≤ -1 ∨
          (buildBudgetPlanFromRows [] (-1) 30).picks.length = 1) ∧
        ((∃ r ∈ ([] : List BudgetCandidate), 0 < r.recommendedQty ∧
            0 < r.recommendedQty * resolveUnitCost r) →
          (buildBudgetPlanFromRows [] (-1) 30).picks ≠ [])) := by
  intro h
  have h2 := h.2.1
  rw [buildBudgetPlanFromRows_usedAmount, buildBudgetPlanFromRows_picks] at h2
  norm_num [greedyResult, candidatesOf, sortByScoreDesc] at h2

/-- C9: `coverageShare` always lies in `[0, 1]`; and when every candidate's
resolved unit cost is nonnegative it equals
`min(1, used / (used + excludedAmount))`, with the pool defaulting to the
nominal budget when used and excluded are both zero. -/
theorem coverageShare_bounds (rows : List BudgetCandidate) (budget tc : ℚ) :
    (0 ≤ (buildBudgetPlanFromRows rows budget tc).coverageShare ∧
        (buildBudgetPlanFromRows rows budget tc).coverageShare ≤ 1) ∧
      ((∀ r ∈ rows, 0 ≤ resolveUnitCost r) →
        ((buildBudgetPlanFromRows rows budget tc).usedAmount +
              (buildBudgetPlanFromRows rows budget tc).excludedAmount ≠ 0 →
          (buildBudgetPlanFromRows rows budget tc).coverageShare =
            min 1 ((buildBudgetPlanFromRows rows budget tc).usedAmount /
              ((buildBudgetPlanFromRows rows budget tc).usedAmount +
                (buildBudgetPlanFromRows rows budget tc).excludedAmount))) ∧
        ((buildBudgetPlanFromRows rows budget tc).usedAmount = 0 ∧
            (buildBudgetPlanFromRows rows budget tc).excludedAmount = 0 →
          (buildBudgetPlanFromRows rows budget tc).coverageShare =
            min 1 ((buildBudgetPlanFromRows rows budget tc).usedAmount / budget))) := by
  have hinv := greedy_foldl_inv budget (candidatesOf rows) 0 []
    (by simp [sumAmounts]) le_rfl (Or.inr (Or.inr rfl))
  have hU : 0 ≤ (buildBudgetPlanFromRows rows budget tc).usedAmount := by
    rw [buildBudgetPlanFromRows_usedAmount]
    simpa only [greedyResult] using hinv.2.1
  constructor
  · rw [buildBudgetPlanFromRows_coverageShare_eq]
    by_cases hp : (if (buildBudgetPlanFromRows rows budget tc).usedAmount +
        (buildBudgetPlanFromRows rows budget tc).excludedAmount = 0 then budget
      else (buildBudgetPlanFromRows rows budget tc).usedAmount +
        (buildBudgetPlanFromRows rows budget tc).excludedAmount) > 0
    · rw [if_pos hp]
      exact ⟨le_min zero_le_one (div_nonneg hU hp.le), min_le_left 1 _⟩
    · rw [if_neg hp]
      norm_num
  · intro hH
    have hE : 0 ≤ (buildBudgetPlanFromRows rows budget tc).excludedAmount := by
      rw [buildBudgetPlanFromRows_excludedAmount]
      apply List.sum_nonneg
      intro x hx
      obtain ⟨c, hc, rfl⟩ := List.mem_map.1 hx
      have hcc : c ∈ candidatesOf rows := (List.mem_filter.1 hc).1
      rw [candidatesOf, mem_sortByScoreDesc] at hcc
      obtain ⟨r, hrf, rfl⟩ := List.mem_map.1 hcc
      obtain ⟨hr, hrq⟩ := List.mem_filter.1 hrf
      rw [mkCand_spend]
      exact mul_nonneg (by simpa using hrq : (0:ℚ) < r.recommendedQty).le (hH r hr)
    constructor
    · intro hne
      have hpos : 0 < (buildBudgetPlanFromRows rows budget tc).usedAmount +
          (buildBudgetPlanFromRows rows budget tc).excludedAmount :=
        lt_of_le_of_ne (add_nonneg hU hE) (Ne.symm hne)
      rw [buildBudgetPlanFromRows_coverageShare_eq]
      simp only [if_neg hne]
      rw [if_pos hpos]
    · rintro ⟨hU0, hE0⟩
      rw [buildBudgetPlanFromRows_coverageShare_eq]
      simp only [hU0, hE0, add_zero, zero_div]
      split_ifs <;> norm_num

/-- C9 witness: the empty candidate list has used = excluded = 0 and the
pool defaults to the nominal budget, giving share 0. -/
theorem coverageShare_bounds_w :
    (buildBudgetPlanFromRows [] 18000 30).usedAmount = 0 ∧
      (buildBudgetPlanFromRows [] 18000 30).excludedAmount = 0 ∧
      (buildBudgetPlanFromRows [] 18000 30).coverageShare =
        min 1 ((buildBudgetPlanFromRows [] 18000 30).usedAmount / 18000) := by
  have hU : (buildBudgetPlanFromRows [] 18000 30).usedAmount = 0 := by
    rw [buildBudgetPlanFromRows_usedAmount]
    norm_num [greedyResult, candidatesOf, sortByScoreDesc]
  have hE : (buildBudgetPlanFromRows [] 18000 30).excludedAmount = 0 := by
    rw [buildBudgetPlanFromRows_excludedAmount]
    norm_num [greedyResult, candidatesOf, sortByScoreDesc]
  exact ⟨hU, hE, ((coverageShare_bounds [] 18000 30).2 (by simp)).2 ⟨hU, hE⟩⟩

/-- C2 counterexample: on a fresh cache hit `getVariantMetrics` appends no
`SyncLogEntry` at all, refuting "every call appends exactly one entry". -/
theorem getVariantMetrics_log_once_cex :
    (getVariantMetrics "demo-shop.myshopify.com" envFreshHit).2.length ≠ 1 := by
  rw [getVariantMetrics_fresh "demo-shop.myshopify.com" envFreshHit
    (by simp [envFreshHit, getSampleVariantMetrics])]
  norm_num

/-- C2 (amended): a call appends zero, one or two `SyncLogEntry` rows by
branch — none on a fresh cache hit or an empty-merge stale serve, one
success entry on a successful non-empty live fetch, one failure entry on a
fetch failure served from the stale cache or an empty merge falling to the
synthetic baseline, and two failure entries on a fetch failure with an
empty cache; a stale-cache serve is never logged as a success. -/
theorem getVariantMetrics_log_branches (shop : String) (env : SyncEnv) :
    (getVariantMetrics shop env).2.length ≤ 2 ∧
      (env.freshCached ≠ [] → (getVariantMetrics shop env).2 = []) ∧
      (∀ inventory sales, env.freshCached = [] →
        env.fetched = .ok (inventory, sales) →
        mergeVariants inventory sales ≠ [] →
        (getVariantMetrics shop env).2 =
          [logEvent shop .sync .success
            ("Variants synced: " ++ toString (mergeVariants inventory sales).length)]) ∧
      (∀ inventory sales, env.freshCached = [] →
        env.fetched = .ok (inventory, sales) →
        mergeVariants inventory sales = [] → env.anyCached ≠ [] →
        (getVariantMetrics shop env).2 = []) ∧
      (∀ e, env.freshCached = [] → env.fetched = .error e →
        env.anyCached ≠ [] →
        (getVariantMetrics shop env).2 =
          [logEvent shop .sync .failure ("Failed to load Shopify data: " ++ e)]) ∧
      (∀ e, env.freshCached = [] → env.fetched = .error e →
        env.anyCached = [] →
        (getVariantMetrics shop env).2 =
          [logEvent shop .sync .failure ("Failed to load Shopify data: " ++ e),
            logEvent shop .sync .failure "Fallback to sample metrics"]) ∧
      (∀ inventory sales, env.freshCached = [] →
        env.fetched = .ok (inventory, sales) →
        mergeVariants inventory sales = [] → env.anyCached = [] →
        (getVariantMetrics shop env).2 =
          [logEvent shop .sync .failure "Fallback to sample metrics"]) := by
  refine ⟨?_, ?_, ?_, ?_, ?_, ?_, ?_⟩
  · obtain ⟨fresh, fetched, any⟩ := env
    by_cases hf : fresh = []
    · rcases fetched with e | ⟨inventory, sales⟩
      · by_cases ha : any = []
        · rw [getVariantMetrics_fetchErr_sample shop _ e hf rfl ha]
          norm_num
        · rw [getVariantMetrics_fetchErr_stale shop _ e hf rfl ha]
          norm_num
      · by_cases hm : mergeVariants inventory sales = []
        · by_cases ha : any = []
          · rw [getVariantMetrics_emptyMerge_sample shop _ inventory sales hf rfl hm ha]
            norm_num
          · rw [getVariantMetrics_emptyMerge_stale shop _ inventory sales hf rfl hm ha]
            norm_num
        · rw [getVariantMetrics_live shop _ inventory sales hf rfl hm]
          norm_num
    · rw [getVariantMetrics_fresh shop _ hf]
      norm_num
  · intro hf
    rw [getVariantMetrics_fresh shop env hf]
  · intro inventory sales h1 h2 h3
    rw [getVariantMetrics_live shop env inventory sales h1 h2 h3]
  · intro inventory sales h1 h2 h3 h4
    rw [getVariantMetrics_emptyMerge_stale shop env inventory sales h1 h2 h3 h4]
  · intro e h1 h2 h4
    rw [getVariantMetrics_fetchErr_stale shop env e h1 h2 h4]
  · intro e h1 h2 h4
    rw [getVariantMetrics_fetchErr_sample shop env e h1 h2 h4]
  · intro inventory sales h1 h2 h3 h4
    rw [getVariantMetrics_emptyMerge_sample shop env inventory sales h1 h2 h3 h4]

/-- C2 witness: the stale-serve-after-fetch-failure branch appends exactly
the single failure entry. -/
theorem getVariantMetrics_log_branches_w :
    envStaleServe.freshCached = [] ∧ envStaleServe.anyCached ≠ [] ∧
      (getVariantMetrics "demo-shop.myshopify.com" envStaleServe).2 =
        [logEvent "demo-shop.myshopify.com" .sync .failure
          ("Failed to load Shopify data: " ++ "network down")] := by
  refine ⟨rfl, by simp [envStaleServe, getSampleVariantMetrics], ?_⟩
  exact (getVariantMetrics_log_branches "demo-shop.myshopify.com" envStaleServe).2.2.2.2.1
    "network down" rfl rfl (by simp [envStaleServe, getSampleVariantMetrics])

/-- C7: `getVariantMetrics` always returns a non-empty metrics list, and the
result follows the fallback chain: fresh cached rows if any, else the
non-empty merged live data, else the stale cached rows if any, else the
fixed synthetic baseline dataset. -/
theorem getVariantMetrics_chain (shop : String) (env : SyncEnv) :
    (getVariantMetrics shop env).1 ≠ [] ∧
      (env.freshCached ≠ [] → (getVariantMetrics shop env).1 = env.freshCached) ∧
      (∀ inventory sales, env.freshCached = [] →
        env.fetched = .ok (inventory, sales) →
        mergeVariants inventory sales ≠ [] →
        (getVariantMetrics shop env).1 = mergeVariants inventory sales) ∧
      (∀ inventory sales, env.freshCached = [] →
        env.fetched = .ok (inventory, sales) →
        mergeVariants inventory sales = [] → env.anyCached ≠ [] →
        (getVariantMetrics shop env).1 = env.anyCached) ∧
      (∀ e, env.freshCached = [] → env.fetched = .error e →
        env.anyCached ≠ [] →
        (getVariantMetrics shop env).1 = env.anyCached) ∧
      (∀ inventory sales, env.freshCached = [] →
        env.fetched = .ok (inventory, sales) →
        mergeVariants inventory sales = [] → env.anyCached = [] →
        (getVariantMetrics shop env).1 = getSampleVariantMetrics) ∧
      (∀ e, env.freshCached = [] → env.fetched = .error e →
        env.anyCached = [] →
        (getVariantMetrics shop env).1 = getSampleVariantMetrics) := by
  refine ⟨?_, ?_, ?_, ?_, ?_, ?_, ?_⟩
  · obtain ⟨fresh, fetched, any⟩ := env
    by_cases hf : fresh = []
    · rcases fetched with e | ⟨inventory, sales⟩
      · by_cases ha : any = []
        · rw [getVariantMetrics_fetchErr_sample shop _ e hf rfl ha]
          exact getSampleVariantMetrics_ne_nil
        · rw [getVariantMetrics_fetchErr_stale shop _ e hf rfl ha]
          exact ha
      · by_cases hm : mergeVariants inventory sales = []
        · by_cases ha : any = []
          · rw [getVariantMetrics_emptyMerge_sample shop _ inventory sales hf rfl hm ha]
            exact getSampleVariantMetrics_ne_nil
          · rw [getVariantMetrics_emptyMerge_stale shop _ inventory sales hf rfl hm ha]
            exact ha
        · rw [getVariantMetrics_live shop _ inventory sales hf rfl hm]
          exact hm
    · rw [getVariantMetrics_fresh shop _ hf]
      exact hf
  · intro hf
    rw [getVariantMetrics_fresh shop env hf]
  · intro inventory sales h1 h2 h3
    rw [getVariantMetrics_live shop env inventory sales h1 h2 h3]
  · intro inventory sales h1 h2 h3 h4
    rw [getVariantMetrics_emptyMerge_stale shop env inventory sales h1 h2 h3 h4]
  · intro e h1 h2 h4
    rw [getVariantMetrics_fetchErr_stale shop env e h1 h2 h4]
  · intro inventory sales h1 h2 h3 h4
    rw [getVariantMetrics_emptyMerge_sample shop env inventory sales h1 h2 h3 h4]
  · intro e h1 h2 h4
    rw [getVariantMetrics_fetchErr_sample shop env e h1 h2 h4]

/-- C7 witness: the stale-cache branch serves the stored rows, which are
non-empty. -/
theorem getVariantMetrics_chain_w :
    envStaleServe.anyCached ≠ [] ∧
      (getVariantMetrics "demo-shop.myshopify.com" envStaleServe).1 =
        envStaleServe.anyCached := by
  refine ⟨by simp [envStaleServe, getSampleVariantMetrics], ?_⟩
  exact (getVariantMetrics_chain "demo-shop.myshopify.com" envStaleServe).2.2.2.2.1
    "network down" rfl rfl (by simp [envStaleServe, getSampleVariantMetrics])

end InventoryCopilot
